import Mathlib

/-!
Verification of the pushover-desktop-client synchronization engine
(`src/index.js`) against its natural-language specification.

The engine is shallowly embedded: each JavaScript function of the `Client`
prototype becomes a Lean function over explicit state, with asynchronous
callback outcomes (notifier success/failure, HTTP responses) supplied as
explicit parameters. JavaScript truthiness on optional string fields is
modelled by `jsTruthy` (both `undefined` and the empty string are falsy).
-/

namespace PushoverClient

/-- A Pushover message, per the `Client~PushoverMessage` typedef in
`src/index.js` (fields irrelevant to the verified claims are omitted).
Optional fields are `Option` so that JavaScript `undefined` is `none`. -/
structure Message where
  id : Nat
  title : Option String
  app : Option String
  message : Option String
  aid : Option Nat
  icon : Option String
deriving DecidableEq

/-- JavaScript truthiness of an optional string: `undefined` and `""` are
falsy, every other string is truthy. -/
def jsTruthy : Option String → Bool
  | none => false
  | some s => s ≠ ""

/-- Outcome of attempting to deliver one message through the notifier, as
distinguished by `Client.prototype.notify` in `src/index.js`:
the notifier callback reports success, the callback reports an error,
`notifier.notify` itself throws, or `fetchImage` throws. -/
inductive Outcome where
  | success
  | callbackError
  | notifyThrow
  | fetchThrow
deriving DecidableEq

/-- The durable/observable head-tracking state: the sequence of ids written
to the local state file by `_saveLastProcessed`, and the sequence of ids
transmitted to the server by `updateHead`, each in call order. -/
structure HeadState where
  localWrites : List Nat
  sentIds : List Nat
deriving DecidableEq

/-- The helper `this._saveLastProcessed` in `src/index.js`: `if (!id) return`
(id `0` is falsy in JavaScript), otherwise write the id to the state file. -/
def saveLastProcessed (id : Nat) (s : HeadState) : HeadState :=
  if id = 0 then s else ⟨s.localWrites ++ [id], s.sentIds⟩

/-- Source `Client.prototype.updateHead` in `src/index.js`:
`if (!message) return`, otherwise POST the message id to the server's
update_highest_message endpoint. -/
def updateHead (message : Option Message) (s : HeadState) : HeadState :=
  match message with
  | none => s
  | some m => ⟨s.localWrites, s.sentIds ++ [m.id]⟩

/-- The recursive `next()` loop inside `Client.prototype.notify`: shift one
message, attempt delivery; on notifier-callback success set `lastSuccessful`
to it and persist its id via `_saveLastProcessed`; on any failure (callback
error, notify throw, fetchImage throw) continue unchanged. Returns the final
`lastSuccessful` together with the head state accumulated so far. -/
def notifyLoop : List (Message × Outcome) → Option Message → HeadState →
    Option Message × HeadState
  | [], lastSuccessful, s => (lastSuccessful, s)
  | (m, o) :: rest, lastSuccessful, s =>
    match o with
    | Outcome.success => notifyLoop rest (some m) (saveLastProcessed m.id s)
    | _ => notifyLoop rest lastSuccessful s

/-- Source `Client.prototype.notify` as a head-state transformer: run the
`next()` loop over the batch, then call `updateHead` with the final
`lastSuccessful`. -/
def notify (batch : List (Message × Outcome)) (s : HeadState) : HeadState :=
  let r := notifyLoop batch none s
  updateHead r.1 r.2

/-- The argument `Client.prototype.notify` passes to `updateHead` when the
batch is exhausted. -/
def notifyUpdateHeadArg (batch : List (Message × Outcome)) : Option Message :=
  (notifyLoop batch none ⟨[], []⟩).1

/-- The messages of a batch whose notify call succeeded, in batch order. -/
def successes (batch : List (Message × Outcome)) : List Message :=
  batch.filterMap (fun p => if p.2 = Outcome.success then some p.1 else none)

/-- Modelled from the spec: "the last message in the batch for which notify
succeeded, regardless of earlier failures". -/
def specLastSuccess (batch : List (Message × Outcome)) : Option Message :=
  (successes batch).getLast?

lemma getLast?_cons_getD (a : α) (l : List α) :
    (a :: l).getLast? = some (l.getLast?.getD a) := by
  induction l generalizing a with
  | nil => rfl
  | cons b t ih =>
    rw [List.getLast?_cons_cons, ih b]
    simp

lemma mem_of_getLast?_eq_some {l : List α} {a : α} (h : l.getLast? = some a) :
    a ∈ l := by
  induction l with
  | nil => simp at h
  | cons b t ih =>
    rw [getLast?_cons_getD] at h
    cases ht : t.getLast? with
    | none => rw [ht] at h; simp at h; simp [h]
    | some x =>
      rw [ht] at h; simp at h; subst h
      exact List.mem_cons_of_mem _ (ih ht)

lemma specLastSuccess_cons_success (m : Message) (rest : List (Message × Outcome)) :
    specLastSuccess ((m, Outcome.success) :: rest) =
      some ((specLastSuccess rest).getD m) := by
  have h : successes ((m, Outcome.success) :: rest) = m :: successes rest := by
    unfold successes
    rw [List.filterMap_cons]
    simp
  unfold specLastSuccess
  rw [h]
  exact getLast?_cons_getD m (successes rest)

lemma specLastSuccess_cons_fail (m : Message) (o : Outcome) (ho : o ≠ Outcome.success)
    (rest : List (Message × Outcome)) :
    specLastSuccess ((m, o) :: rest) = specLastSuccess rest := by
  have h : successes ((m, o) :: rest) = successes rest := by
    unfold successes
    rw [List.filterMap_cons]
    simp [ho]
  unfold specLastSuccess
  rw [h]

lemma notifyLoop_fst (batch : List (Message × Outcome)) :
    ∀ (last : Option Message) (s : HeadState),
    (notifyLoop batch last s).1 = (specLastSuccess batch).or last := by
  induction batch with
  | nil => intro last s; simp [notifyLoop, specLastSuccess, successes]
  | cons p rest ih =>
    intro last s
    obtain ⟨m, o⟩ := p
    by_cases ho : o = Outcome.success
    · subst ho
      show (notifyLoop rest (some m) (saveLastProcessed m.id s)).1 = _
      rw [ih, specLastSuccess_cons_success]
      cases specLastSuccess rest <;> simp
    · have hloop : notifyLoop ((m, o) :: rest) last s = notifyLoop rest last s := by
        cases o with
        | success => exact absurd rfl ho
        | callbackError => rfl
        | notifyThrow => rfl
        | fetchThrow => rfl
      rw [hloop, ih, specLastSuccess_cons_fail m o ho]

/-- C1: after the batch is exhausted, `Client.prototype.notify` invokes
`updateHead` with exactly the last message of the batch whose notify call
succeeded; a failed message is never the one passed (it is some message that
succeeded), and if no message succeeded the argument is `none`
(and `updateHead` is then a no-op). -/
theorem notify_advances_last_success (batch : List (Message × Outcome)) :
    notifyUpdateHeadArg batch = specLastSuccess batch ∧
    (∀ m : Message, notifyUpdateHeadArg batch = some m → (m, Outcome.success) ∈ batch) ∧
    (specLastSuccess batch = none →
      notifyUpdateHeadArg batch = none ∧ ∀ s : HeadState, updateHead (notifyUpdateHeadArg batch) s = s) := by
  have harg : notifyUpdateHeadArg batch = specLastSuccess batch := by
    unfold notifyUpdateHeadArg
    rw [notifyLoop_fst]
    cases specLastSuccess batch <;> simp
  refine ⟨harg, ?_, ?_⟩
  · intro m hm
    rw [harg] at hm
    have hmem : m ∈ successes batch := mem_of_getLast?_eq_some hm
    obtain ⟨⟨m', o'⟩, hp, hf⟩ := List.mem_filterMap.mp hmem
    split_ifs at hf with ho
    obtain rfl := Option.some_inj.mp hf
    exact ho ▸ hp
  · intro hnone
    rw [harg, hnone]
    exact ⟨rfl, fun s => rfl⟩

/-- Witness for C1 on the spec's 3-message example: delivery succeeds for
messages 0 and 2 but fails for message 1; `updateHead` receives message 2. -/
theorem notify_advances_last_success_witness :
    notifyUpdateHeadArg
        [(⟨10, none, none, none, none, none⟩, Outcome.success),
         (⟨11, none, none, none, none, none⟩, Outcome.callbackError),
         (⟨12, none, none, none, none, none⟩, Outcome.success)] =
      specLastSuccess
        [(⟨10, none, none, none, none, none⟩, Outcome.success),
         (⟨11, none, none, none, none, none⟩, Outcome.callbackError),
         (⟨12, none, none, none, none, none⟩, Outcome.success)] ∧
    ((⟨12, none, none, none, none, none⟩ : Message), Outcome.success) ∈
        [(⟨10, none, none, none, none, none⟩, Outcome.success),
         (⟨11, none, none, none, none, none⟩, Outcome.callbackError),
         (⟨12, none, none, none, none, none⟩, Outcome.success)] :=
  ⟨(notify_advances_last_success _).1,
   (notify_advances_last_success
        [(⟨10, none, none, none, none, none⟩, Outcome.success),
         (⟨11, none, none, none, none, none⟩, Outcome.callbackError),
         (⟨12, none, none, none, none, none⟩, Outcome.success)]).2.1
      ⟨12, none, none, none, none, none⟩ (by decide)⟩

/-! ### C2: head-advancement monotonicity -/

/-- One head-advancement operation: either a local persistence call
(`_saveLastProcessed`) or a server head update (`updateHead`). -/
inductive HeadOp where
  | save (id : Nat)
  | send (message : Option Message)
deriving DecidableEq

/-- Apply one head operation to the head state, via the corresponding
source function. -/
def applyHeadOp (s : HeadState) (op : HeadOp) : HeadState :=
  match op with
  | HeadOp.save id => saveLastProcessed id s
  | HeadOp.send m => updateHead m s

/-- Run a sequence of head-advancement operations from a given state. -/
def runHeadOps (ops : List HeadOp) (s : HeadState) : HeadState :=
  ops.foldl applyHeadOp s

/-- The id a head operation writes to the local state file, if any. -/
def localId : HeadOp → Option Nat
  | HeadOp.save id => if id = 0 then none else some id
  | HeadOp.send _ => none

/-- The id a head operation transmits to the server, if any. -/
def sentId : HeadOp → Option Nat
  | HeadOp.send (some m) => some m.id
  | HeadOp.send none => none
  | HeadOp.save _ => none

/-- The id carried by a head operation, if any. -/
def opId : HeadOp → Option Nat
  | HeadOp.save id => some id
  | HeadOp.send (some m) => some m.id
  | HeadOp.send none => none

lemma runHeadOps_spec (ops : List HeadOp) :
    ∀ s : HeadState,
    runHeadOps ops s =
      ⟨s.localWrites ++ ops.filterMap localId, s.sentIds ++ ops.filterMap sentId⟩ := by
  induction ops with
  | nil => intro s; simp [runHeadOps]
  | cons op rest ih =>
    intro s
    show runHeadOps rest (applyHeadOp s op) = _
    rw [ih]
    obtain ⟨lw, si⟩ := s
    cases op with
    | save id =>
      by_cases h : id = 0 <;>
        simp [applyHeadOp, saveLastProcessed, List.filterMap_cons, localId, sentId, h]
    | send m =>
      cases m <;>
        simp [applyHeadOp, updateHead, List.filterMap_cons, localId, sentId]

lemma filterMap_sublist_of_imp {α β : Type} (f g : α → Option β)
    (h : ∀ x y, f x = some y → g x = some y) :
    ∀ l : List α, List.Sublist (l.filterMap f) (l.filterMap g) := by
  intro l
  induction l with
  | nil => simp
  | cons a t ih =>
    rw [List.filterMap_cons, List.filterMap_cons]
    cases hf : f a with
    | none =>
      cases hg : g a with
      | none => exact ih
      | some b => exact ih.cons b
    | some y =>
      rw [h a y hf]
      exact ih.cons₂ y

/-- Counterexample to C2: neither `updateHead` nor `_saveLastProcessed`
enforces monotonicity — sending head 5 and then head 3 transmits the
decreasing sequence [5, 3], and saving id 5 then id 3 records [5, 3]
locally. -/
theorem head_monotonicity_cex :
    ¬ ((runHeadOps
          [HeadOp.send (some ⟨5, none, none, none, none, none⟩),
           HeadOp.send (some ⟨3, none, none, none, none, none⟩)]
          ⟨[], []⟩).sentIds.Pairwise (· ≤ ·)) ∧
    ¬ ((runHeadOps [HeadOp.save 5, HeadOp.save 3]
          ⟨[], []⟩).localWrites.Pairwise (· ≤ ·)) := by
  decide

/-- C2 (amended): the head-recording functions preserve monotonicity but do
not enforce it — whenever the ids carried by a sequence of advance calls are
non-decreasing, both the sequence of ids written to the local state file and
the sequence of ids transmitted to the server are non-decreasing. -/
theorem head_ops_monotone (ops : List HeadOp)
    (h : (ops.filterMap opId).Pairwise (· ≤ ·)) :
    ((runHeadOps ops ⟨[], []⟩).localWrites).Pairwise (· ≤ ·) ∧
    ((runHeadOps ops ⟨[], []⟩).sentIds).Pairwise (· ≤ ·) := by
  rw [runHeadOps_spec]
  constructor
  · simp only [List.nil_append]
    refine h.sublist (filterMap_sublist_of_imp localId opId ?_ ops)
    intro x y hxy
    cases x with
    | save id =>
      simp only [localId] at hxy
      simp only [opId]
      by_cases h0 : id = 0
      · rw [if_pos h0] at hxy; simp at hxy
      · rw [if_neg h0] at hxy; exact hxy
    | send m => cases m <;> simp [localId] at hxy
  · simp only [List.nil_append]
    refine h.sublist (filterMap_sublist_of_imp sentId opId ?_ ops)
    intro x y hxy
    cases x with
    | save id => simp [sentId] at hxy
    | send m =>
      cases m with
      | none => simp [sentId] at hxy
      | some msg =>
        simp only [sentId] at hxy
        simp only [opId]
        exact hxy

/-- Witness for C2 (amended): saving id 3 and then sending head 5 — a
non-decreasing id sequence — yields non-decreasing local and server
records. -/
theorem head_ops_monotone_witness :
    ((runHeadOps
        [HeadOp.save 3, HeadOp.send (some ⟨5, none, none, none, none, none⟩)]
        ⟨[], []⟩).localWrites).Pairwise (· ≤ ·) ∧
    ((runHeadOps
        [HeadOp.save 3, HeadOp.send (some ⟨5, none, none, none, none, none⟩)]
        ⟨[], []⟩).sentIds).Pairwise (· ≤ ·) :=
  head_ops_monotone
    [HeadOp.save 3, HeadOp.send (some ⟨5, none, none, none, none, none⟩)]
    (by decide)

/-! ### C3: reconnect delay -/

/-- The delay `Client.prototype.reconnect` passes to `setTimeout` in
`src/index.js`:
`self.settings.keepAliveTimeout - (Date.now() - self._lastConnection)`,
with no clamping. -/
def reconnectDelay (keepAliveTimeout now lastConnection : Int) : Int :=
  keepAliveTimeout - (now - lastConnection)

/-- Modelled from the spec: "Reconnect delay equals
max(0, keepAliveTimeout − elapsedSinceLastConnectAttempt)". -/
def specReconnectDelay (keepAliveTimeout elapsed : Int) : Int :=
  max 0 (keepAliveTimeout - elapsed)

/-- Counterexample to C3: with keepAliveTimeout 60000 and a connect attempt
70000 ms ago, the computed delay is −10000, which is negative and differs
from the spec's max(0, ·) = 0. -/
theorem reconnect_delay_cex :
    reconnectDelay 60000 70000 0 ≠ specReconnectDelay 60000 (70000 - 0) ∧
    reconnectDelay 60000 70000 0 < 0 := by
  decide

/-- C3 (amended): the computed reconnect delay is
`keepAliveTimeout − elapsedSinceLastConnectAttempt` with no clamping; it
agrees with the spec's `max(0, ·)` exactly when the elapsed time does not
exceed the keepalive timeout (in particular, with keepAliveTimeout 60000 and
a connect attempt 20000 ms ago, the delay is 40000 ms), but it is negative
when the elapsed time exceeds the timeout. -/
theorem reconnect_delay_eq_spec_within_window
    (keepAliveTimeout now lastConnection : Int)
    (h : now - lastConnection ≤ keepAliveTimeout) :
    reconnectDelay keepAliveTimeout now lastConnection =
      specReconnectDelay keepAliveTimeout (now - lastConnection) ∧
    0 ≤ reconnectDelay keepAliveTimeout now lastConnection := by
  unfold reconnectDelay specReconnectDelay
  constructor
  · rw [max_eq_right (by omega)]
  · omega

/-- Witness for C3 (amended), at the spec's own example: keepAliveTimeout
60000, connect attempt 20000 ms ago — the delay is 40000 ms. -/
theorem reconnect_delay_eq_spec_within_window_witness :
    reconnectDelay 60000 20000 0 = specReconnectDelay 60000 (20000 - 0) ∧
    reconnectDelay 60000 20000 0 = 40000 :=
  ⟨(reconnect_delay_eq_spec_within_window 60000 20000 0 (by decide)).1,
   by decide⟩

/-! ### C6: frame dispatch table -/

/-- The effect of handling one wire frame, as read off the switch statement
of the message handler in `Client.prototype.connect`: whether it triggers a
synchronization (`refreshMessages`), whether it resets the keepalive timer
(`resetKeepAlive`), and whether it forces a reconnect (`reconnect`). -/
structure FrameHandling where
  sync : Bool
  resetKA : Bool
  reconnect : Bool
deriving DecidableEq

/-- The switch statement of the message handler in `src/index.js`:
frame "!" triggers `refreshMessages`; "#" calls `resetKeepAlive`; "R" calls
`reconnect`; "E" calls `refreshMessages` (no reconnect); "A" calls
`reconnect`; the default branch calls `reconnect`. -/
def handleFrame (message : String) : FrameHandling :=
  if message = "!" then ⟨true, false, false⟩
  else if message = "#" then ⟨false, true, false⟩
  else if message = "R" then ⟨false, false, true⟩
  else if message = "E" then ⟨true, false, false⟩
  else if message = "A" then ⟨false, false, true⟩
  else ⟨false, false, true⟩

/-- C6: the frame handler implements the dispatch table exactly — "!"
triggers a synchronization; "#" only resets the keepalive timer; "R" and "A"
force a reconnect; "E" triggers an immediate synchronization without forcing
a reconnect; and every unrecognized frame is handled exactly as "R" is. -/
theorem frame_dispatch_table :
    handleFrame "!" = ⟨true, false, false⟩ ∧
    handleFrame "#" = ⟨false, true, false⟩ ∧
    handleFrame "R" = ⟨false, false, true⟩ ∧
    handleFrame "A" = ⟨false, false, true⟩ ∧
    handleFrame "E" = ⟨true, false, false⟩ ∧
    (∀ m : String, m ≠ "!" → m ≠ "#" → m ≠ "R" → m ≠ "E" → m ≠ "A" →
      handleFrame m = handleFrame "R") := by
  refine ⟨by decide, by decide, by decide, by decide, by decide, ?_⟩
  intro m h1 h2 h3 h4 h5
  unfold handleFrame
  rw [if_neg h1, if_neg h2, if_neg h3, if_neg h4, if_neg h5]
  decide

/-- Witness for C6: the unrecognized frame "Z" is handled exactly as "R". -/
theorem frame_dispatch_table_witness :
    handleFrame "Z" = handleFrame "R" :=
  frame_dispatch_table.2.2.2.2.2 "Z"
    (by decide) (by decide) (by decide) (by decide) (by decide)

/-! ### C4: keepalive timer -/

/-- Source `Client.prototype.resetKeepAlive`: clear the outstanding timer
and rearm it to fire `keepAliveTimeout` milliseconds from now. The timer
state is the absolute time at which it would fire, or `none` if cleared. -/
def resetKeepAlive (now keepAliveTimeout : Nat) : Option Nat :=
  some (now + keepAliveTimeout)

/-- The effect of one received frame on the keepalive timer, per the message
handler in `src/index.js`: a frame whose handler calls `resetKeepAlive`
rearms the timer; a frame whose handler calls `reconnect` clears it
(`clearTimeout(self._keepAlive)` inside `reconnect`); every other frame
leaves it untouched. The frame is an event `(arrival time, frame text)`. -/
def frameKeepAlive (keepAliveTimeout : Nat) (deadline : Option Nat)
    (event : Nat × String) : Option Nat :=
  if (handleFrame event.2).resetKA then resetKeepAlive event.1 keepAliveTimeout
  else if (handleFrame event.2).reconnect then none
  else deadline

/-- Process a timed trace of received frames, tracking the keepalive timer. -/
def runFrames (keepAliveTimeout : Nat) (deadline : Option Nat) :
    List (Nat × String) → Option Nat
  | [] => deadline
  | event :: rest =>
      runFrames keepAliveTimeout (frameKeepAlive keepAliveTimeout deadline event) rest

/-- The arrival time of the last keepalive ping ("#") in a trace, or the
given arming time if the trace holds no ping. -/
def lastPingTime (t0 : Nat) : List (Nat × String) → Nat
  | [] => t0
  | event :: rest => lastPingTime (if event.2 = "#" then event.1 else t0) rest

/-- Counterexample to C4: receiving frame "!" does not reset the keepalive
countdown — with the timer armed at time 0 for 60000 ms, a "!" frame at time
30000 leaves the deadline at 60000 rather than the claimed 30000 + 60000, so
the timer still fires at 60000 even though a frame arrived 30000 ms before. -/
theorem keepalive_reset_cex :
    runFrames 60000 (resetKeepAlive 0 60000) [(30000, "!")] = some 60000 ∧
    runFrames 60000 (resetKeepAlive 0 60000) [(30000, "!")] ≠
      some (30000 + 60000) := by
  decide

/-- C4 (amended): the keepalive countdown is reset to full only by "#"
(keepalive ping) frames; "!" and "E" frames leave it running. For every
trace of such non-reconnect frames after arming at time t0, the timer is set
to fire exactly `keepAliveTimeout` ms after the last "#" frame (or after t0
if no ping arrived): it fires only once `keepAliveTimeout` ms elapse with no
ping received. -/
lemma frameKeepAlive_ping (keepAliveTimeout t : Nat) (d : Option Nat) :
    frameKeepAlive keepAliveTimeout d (t, "#") =
      resetKeepAlive t keepAliveTimeout := by
  simp [frameKeepAlive, handleFrame]

lemma frameKeepAlive_bang (keepAliveTimeout t : Nat) (d : Option Nat) :
    frameKeepAlive keepAliveTimeout d (t, "!") = d := by
  simp [frameKeepAlive, handleFrame]

lemma frameKeepAlive_err (keepAliveTimeout t : Nat) (d : Option Nat) :
    frameKeepAlive keepAliveTimeout d (t, "E") = d := by
  simp [frameKeepAlive, handleFrame]

theorem keepalive_fires_after_timeout_since_ping
    (keepAliveTimeout t0 : Nat) (trace : List (Nat × String))
    (h : ∀ e ∈ trace, e.2 = "#" ∨ e.2 = "!" ∨ e.2 = "E") :
    runFrames keepAliveTimeout (resetKeepAlive t0 keepAliveTimeout) trace =
      some (lastPingTime t0 trace + keepAliveTimeout) := by
  revert h
  induction trace generalizing t0 with
  | nil => intro h; rfl
  | cons e rest ih =>
    intro h
    have he := h e (List.mem_cons_self e rest)
    have hrest : ∀ x ∈ rest, x.2 = "#" ∨ x.2 = "!" ∨ x.2 = "E" :=
      fun x hx => h x (List.mem_cons_of_mem e hx)
    obtain ⟨t, f⟩ := e
    simp only at he
    rcases he with hf | hf | hf <;> subst hf
    · show runFrames _ (frameKeepAlive _ _ (t, "#")) rest = _
      rw [frameKeepAlive_ping]
      have hl : lastPingTime t0 ((t, "#") :: rest) = lastPingTime t rest := by
        simp [lastPingTime]
      rw [hl]
      exact ih t hrest
    · show runFrames _ (frameKeepAlive _ _ (t, "!")) rest = _
      rw [frameKeepAlive_bang]
      have hl : lastPingTime t0 ((t, "!") :: rest) = lastPingTime t0 rest := by
        simp [lastPingTime]
      rw [hl]
      exact ih t0 hrest
    · show runFrames _ (frameKeepAlive _ _ (t, "E")) rest = _
      rw [frameKeepAlive_err]
      have hl : lastPingTime t0 ((t, "E") :: rest) = lastPingTime t0 rest := by
        simp [lastPingTime]
      rw [hl]
      exact ih t0 hrest

/-- Witness for C4 (amended): armed at time 0 with timeout 60000, after a
ping at 10000 and a new-message frame at 20000 the timer fires at 70000 —
60000 ms after the last ping. -/
theorem keepalive_fires_after_timeout_since_ping_witness :
    runFrames 60000 (resetKeepAlive 0 60000) [(10000, "#"), (20000, "!")] =
      some (lastPingTime 0 [(10000, "#"), (20000, "!")] + 60000) :=
  keepalive_fires_after_timeout_since_ping 60000 0
    [(10000, "#"), (20000, "!")] (by decide)

/-! ### C5: startup ordering -/

/-- One step of the `wsClient.on('open')` handler in `src/index.js`, in the
order the handler performs them. -/
inductive OpenAction where
  | updateHeadCall (id : Nat)
  | refreshMessagesCall
  | resetKeepAliveCall
  | sendLogin
  | startPoll
deriving DecidableEq

/-- The action sequence of the open handler: replay the persisted head (if
any) via `updateHead`, then `refreshMessages`, then `resetKeepAlive`, then
send the login frame, then start the periodic poll. -/
def onOpen (headFromState : Option Nat) : List OpenAction :=
  (match headFromState with
   | some h => [OpenAction.updateHeadCall h]
   | none => []) ++
  [OpenAction.refreshMessagesCall, OpenAction.resetKeepAliveCall,
   OpenAction.sendLogin, OpenAction.startPoll]

/-- Whether an open-handler step is the server head advance. -/
def isUpdateHead : OpenAction → Bool
  | OpenAction.updateHeadCall _ => true
  | _ => false

/-- Whether an open-handler step sends the authentication frame. -/
def isSendLogin : OpenAction → Bool
  | OpenAction.sendLogin => true
  | _ => false

/-- Whether an open-handler step is the message fetch. -/
def isRefresh : OpenAction → Bool
  | OpenAction.refreshMessagesCall => true
  | _ => false

/-- Scanning a trace left to right: `true` iff a step satisfying `p` occurs
and no step satisfying `q` occurs at or before it. -/
def firstOf (p q : OpenAction → Bool) : List OpenAction → Bool
  | [] => false
  | a :: rest => if q a then false else if p a then true else firstOf p q rest

/-- Counterexample to C5: on startup with persisted head 42, the head
advance is not an action after the authentication frame — it precedes the
login send (the claim would require the login send to come first). -/
theorem startup_order_cex :
    firstOf isSendLogin isUpdateHead (onOpen (some 42)) = false ∧
    firstOf isUpdateHead isSendLogin (onOpen (some 42)) = true := by
  decide

/-- C5 (amended): on startup with a locally persisted head and a successful
connection, the head advance is issued first in the open handler — strictly
before the first message fetch and also before the authentication frame is
sent (not after it, as the claim states). -/
theorem startup_head_advance_before_fetch (headId : Nat) :
    firstOf isUpdateHead isRefresh (onOpen (some headId)) = true ∧
    firstOf isUpdateHead isSendLogin (onOpen (some headId)) = true := by
  constructor <;> rfl

/-- Witness for C5 (amended): with the spec's persisted head 42. -/
theorem startup_head_advance_before_fetch_witness :
    firstOf isUpdateHead isRefresh (onOpen (some 42)) = true ∧
    firstOf isUpdateHead isSendLogin (onOpen (some 42)) = true :=
  startup_head_advance_before_fetch 42

/-! ### C7: refreshMessages error handling -/

/-- The JSON payload of a successful messages.json response, as consumed by
`refreshMessages` (`payload.messages`). -/
structure RefreshPayload where
  messages : List Message
deriving DecidableEq

/-- What the end-of-response handler of `Client.prototype.refreshMessages`
does: pass the message list to `notify`, or log the transient failure and
return. -/
inductive RefreshOutcome where
  | deliver (messages : List Message)
  | transientError
deriving DecidableEq

/-- The end-of-response handler of `Client.prototype.refreshMessages` in
`src/index.js`: a non-200 status is logged and the handler returns; a body
that fails to parse as JSON is logged and the handler returns; otherwise
`notify(payload.messages)` is called. The parse result is supplied as an
`Option`. -/
def refreshOnEnd (statusCode : Nat) (parsed : Option RefreshPayload) :
    RefreshOutcome :=
  if statusCode ≠ 200 then RefreshOutcome.transientError
  else
    match parsed with
    | none => RefreshOutcome.transientError
    | some payload => RefreshOutcome.deliver payload.messages

/-- One whole fetch cycle as a head-state transformer: on a transient
failure the state is untouched; on success the batch flows into `notify`
(with per-message delivery outcomes supplied by `outcome`). -/
def refreshStep (statusCode : Nat) (parsed : Option RefreshPayload)
    (outcome : Message → Outcome) (s : HeadState) : HeadState :=
  match refreshOnEnd statusCode parsed with
  | RefreshOutcome.transientError => s
  | RefreshOutcome.deliver msgs =>
      notify (msgs.map (fun m => (m, outcome m))) s

/-- C7: if the HTTP status is not 200 or the body fails to parse as JSON,
the fetch cycle delivers no notification, never reaches `updateHead`, and
leaves the locally persisted head (and all head state) unchanged. -/
theorem refresh_error_preserves_state (statusCode : Nat)
    (parsed : Option RefreshPayload)
    (h : statusCode ≠ 200 ∨ parsed = none) :
    refreshOnEnd statusCode parsed = RefreshOutcome.transientError ∧
    ∀ (outcome : Message → Outcome) (s : HeadState),
      refreshStep statusCode parsed outcome s = s := by
  have hend : refreshOnEnd statusCode parsed = RefreshOutcome.transientError := by
    unfold refreshOnEnd
    rcases h with h | h
    · rw [if_pos h]
    · subst h
      by_cases h200 : statusCode ≠ 200
      · rw [if_pos h200]
      · rw [if_neg h200]
  refine ⟨hend, fun outcome s => ?_⟩
  unfold refreshStep
  rw [hend]

/-- Witness for C7: a 500 response with a well-formed body leaves a concrete
head state untouched and yields the transient-error outcome. -/
theorem refresh_error_preserves_state_witness :
    refreshOnEnd 500 (some ⟨[]⟩) = RefreshOutcome.transientError ∧
    refreshStep 500 (some ⟨[]⟩) (fun _ => Outcome.success) ⟨[7], [7]⟩ =
      ⟨[7], [7]⟩ :=
  ⟨(refresh_error_preserves_state 500 (some ⟨[]⟩) (Or.inl (by decide))).1,
   (refresh_error_preserves_state 500 (some ⟨[]⟩) (Or.inl (by decide))).2
     (fun _ => Outcome.success) ⟨[7], [7]⟩⟩

/-! ### C8 and C10: image cache -/

/-- How the icon host answers a download attempt in
`Client.prototype.fetchImage`: the request errors out before any response
(no response stream, so nothing is piped to disk), or a response with the
given status arrives and streaming it to the cache file either succeeds on
the filesystem side (`fsOk`) or throws (the catch around
`response.pipe(fs.createWriteStream(imageFile))`). -/
inductive IconResponse where
  | netError
  | resp (statusCode : Nat) (fsOk : Bool)
deriving DecidableEq

/-- The observable result of one `fetchImage` call: the value passed to the
callback (the image path, or `none` for the JavaScript `false`), whether a
network request was issued, and the set of files in the cache directory
afterwards. -/
structure FetchResult where
  result : Option String
  networkCall : Bool
  files : List String
deriving DecidableEq

/-- Source `Client.prototype.fetchImage` in `src/index.js`: with no
configured `imageCache`, call back `false` immediately; if the cache file
already exists, call back its path immediately; otherwise issue the request
— the response body is piped into the cache file before the status is
examined on end, so the file is created whenever the filesystem write
succeeds, and the callback gets the path only on a 200 status. -/
def fetchImage (imageCache : Option String) (files : List String)
    (imageName : String) (response : IconResponse) : FetchResult :=
  match imageCache with
  | none => ⟨none, false, files⟩
  | some cacheDir =>
    let imageFile := cacheDir ++ "/" ++ imageName
    if imageFile ∈ files then ⟨some imageFile, false, files⟩
    else
      match response with
      | IconResponse.netError => ⟨none, true, files⟩
      | IconResponse.resp statusCode fsOk =>
        if fsOk then
          if statusCode = 200 then ⟨some imageFile, true, imageFile :: files⟩
          else ⟨none, true, imageFile :: files⟩
        else ⟨none, true, files⟩

/-- C8: with no image-cache directory configured, `fetchImage` reports
absence with no network access; with the file already cached it reports the
path with no network call; and after a successful download a second fetch
for the same name issues no network request and returns the same path. -/
theorem fetchImage_cache_behavior :
    (∀ (files : List String) (name : String) (r : IconResponse),
      fetchImage none files name r = ⟨none, false, files⟩) ∧
    (∀ (cacheDir : String) (files : List String) (name : String)
        (r : IconResponse), (cacheDir ++ "/" ++ name) ∈ files →
      fetchImage (some cacheDir) files name r =
        ⟨some (cacheDir ++ "/" ++ name), false, files⟩) ∧
    (∀ (cacheDir : String) (files : List String) (name : String)
        (r' : IconResponse), (cacheDir ++ "/" ++ name) ∉ files →
      (fetchImage (some cacheDir) files name (IconResponse.resp 200 true)).result =
        some (cacheDir ++ "/" ++ name) ∧
      fetchImage (some cacheDir)
          (fetchImage (some cacheDir) files name (IconResponse.resp 200 true)).files
          name r' =
        ⟨some (cacheDir ++ "/" ++ name), false,
         (fetchImage (some cacheDir) files name (IconResponse.resp 200 true)).files⟩) := by
  refine ⟨fun files name r => rfl, ?_, ?_⟩
  · intro cacheDir files name r hmem
    simp [fetchImage, hmem]
  · intro cacheDir files name r' hmem
    constructor
    · simp [fetchImage, hmem]
    · have hfiles :
          (fetchImage (some cacheDir) files name (IconResponse.resp 200 true)).files =
            (cacheDir ++ "/" ++ name) :: files := by
        simp [fetchImage, hmem]
      rw [hfiles]
      simp [fetchImage]

/-- Witness for C8: an empty cache directory, a successful download of
"a.png", then a repeat request (here with the network erroring, which must
not matter): the repeat is a pure cache hit. -/
theorem fetchImage_cache_behavior_witness :
    (fetchImage (some "/cache") [] "a.png" (IconResponse.resp 200 true)).result =
      some ("/cache" ++ "/" ++ "a.png") ∧
    fetchImage (some "/cache")
        (fetchImage (some "/cache") [] "a.png" (IconResponse.resp 200 true)).files
        "a.png" IconResponse.netError =
      ⟨some ("/cache" ++ "/" ++ "a.png"), false,
       (fetchImage (some "/cache") [] "a.png" (IconResponse.resp 200 true)).files⟩ :=
  fetchImage_cache_behavior.2.2 "/cache" [] "a.png" IconResponse.netError
    (by decide)

/-- C10: when a download gets a non-200 response, `fetchImage` reports
absence, yet the response body has already been streamed into the cache file
— the file exists afterwards, and every subsequent fetch for the same name
reports that non-image path as a cache hit without any network request. -/
theorem fetchImage_non200_pollutes_cache (cacheDir : String)
    (files : List String) (name : String) (statusCode : Nat)
    (r' : IconResponse)
    (hmem : (cacheDir ++ "/" ++ name) ∉ files) (hstatus : statusCode ≠ 200) :
    (fetchImage (some cacheDir) files name (IconResponse.resp statusCode true)).result =
      none ∧
    (cacheDir ++ "/" ++ name) ∈
      (fetchImage (some cacheDir) files name (IconResponse.resp statusCode true)).files ∧
    fetchImage (some cacheDir)
        (fetchImage (some cacheDir) files name (IconResponse.resp statusCode true)).files
        name r' =
      ⟨some (cacheDir ++ "/" ++ name), false,
       (fetchImage (some cacheDir) files name (IconResponse.resp statusCode true)).files⟩ := by
  have hfiles :
      (fetchImage (some cacheDir) files name (IconResponse.resp statusCode true)).files =
        (cacheDir ++ "/" ++ name) :: files := by
    simp [fetchImage, hmem, hstatus]
  refine ⟨?_, ?_, ?_⟩
  · simp [fetchImage, hmem, hstatus]
  · rw [hfiles]
    exact List.mem_cons_self _ _
  · rw [hfiles]
    simp [fetchImage]

/-- Witness for C10: a 404 response for "b.png" on an empty cache leaves the
(non-image) file in the cache, and the repeat request is a cache hit. -/
theorem fetchImage_non200_pollutes_cache_witness :
    (fetchImage (some "/cache") [] "b.png" (IconResponse.resp 404 true)).result =
      none ∧
    ("/cache" ++ "/" ++ "b.png") ∈
      (fetchImage (some "/cache") [] "b.png" (IconResponse.resp 404 true)).files ∧
    fetchImage (some "/cache")
        (fetchImage (some "/cache") [] "b.png" (IconResponse.resp 404 true)).files
        "b.png" IconResponse.netError =
      ⟨some ("/cache" ++ "/" ++ "b.png"), false,
       (fetchImage (some "/cache") [] "b.png" (IconResponse.resp 404 true)).files⟩ :=
  fetchImage_non200_pollutes_cache "/cache" [] "b.png" 404
    IconResponse.netError (by decide) (by decide)

/-! ### C9: icon resolution and notification payload -/

/-- JavaScript `a || b` on two optional strings: `b` when `a` is falsy. -/
def jsOr (a b : Option String) : Option String :=
  if jsTruthy a then a else b

/-- The icon-name resolution at the top of the per-message step of
`Client.prototype.notify`: a truthy `message.icon` gets ".png" appended;
else "pushover.png" when `message.aid === 1`; else "default.png". -/
def resolveIcon (m : Message) : String :=
  if jsTruthy m.icon then m.icon.getD "" ++ ".png"
  else if m.aid = some 1 then "pushover.png"
  else "default.png"

/-- The notification payload handed to the notifier collaborator: icon
fields only when an image path was resolved, title from
`message.title || message.app`, and the message field only when the body is
truthy. -/
structure NotifyPayload where
  appIcon : Option String
  icon : Option String
  title : Option String
  message : Option String
deriving DecidableEq

/-- The payload construction inside the `fetchImage` callback of
`Client.prototype.notify` in `src/index.js`. -/
def buildPayload (m : Message) (imageFile : Option String) : NotifyPayload :=
  ⟨imageFile, imageFile, jsOr m.title m.app,
   if jsTruthy m.message then m.message else none⟩

/-- C9: icon name resolution follows the message icon / first-party id /
generic fallback rule; the payload title is the message title, falling back
to the source-application name when the title is absent (or empty); icon
fields are present exactly when an image path was resolved; the message
field is present exactly when the body is non-empty; and a message with no
title, no app name and body "hello" yields an absent title and message field
"hello". -/
theorem notification_payload_rules (m : Message) (imageFile : Option String) :
    (jsTruthy m.icon = true → resolveIcon m = m.icon.getD "" ++ ".png") ∧
    (jsTruthy m.icon = false → m.aid = some 1 → resolveIcon m = "pushover.png") ∧
    (jsTruthy m.icon = false → m.aid ≠ some 1 → resolveIcon m = "default.png") ∧
    (buildPayload m imageFile).appIcon = imageFile ∧
    (buildPayload m imageFile).icon = imageFile ∧
    (jsTruthy m.title = true → (buildPayload m imageFile).title = m.title) ∧
    (jsTruthy m.title = false → (buildPayload m imageFile).title = m.app) ∧
    (jsTruthy m.message = false → (buildPayload m imageFile).message = none) ∧
    (jsTruthy m.message = true → (buildPayload m imageFile).message = m.message) ∧
    buildPayload ⟨5, none, none, some "hello", none, none⟩ none =
      ⟨none, none, none, some "hello"⟩ := by
  refine ⟨?_, ?_, ?_, rfl, rfl, ?_, ?_, ?_, ?_, ?_⟩
  · intro h; simp [resolveIcon, h]
  · intro h ha; simp [resolveIcon, h, ha]
  · intro h ha; simp [resolveIcon, h, ha]
  · intro h; simp [buildPayload, jsOr, h]
  · intro h; simp [buildPayload, jsOr, h]
  · intro h; simp [buildPayload, h]
  · intro h; simp [buildPayload, h]
  · show buildPayload ⟨5, none, none, some "hello", none, none⟩ none = _
    simp [buildPayload, jsOr, jsTruthy]

/-- Witness for C9: a message with a truthy icon name resolves to that name
with ".png" appended; a message with no title and no app name and body
"hello" yields an absent title and message "hello". -/
theorem notification_payload_rules_witness :
    resolveIcon ⟨1, some "t", none, some "b", some 1, some "ic"⟩ = "ic.png" ∧
    (buildPayload ⟨5, none, none, some "hello", none, none⟩ none).message =
      some "hello" :=
  ⟨by
    have h := (notification_payload_rules
        ⟨1, some "t", none, some "b", some 1, some "ic"⟩ none).1 (by decide)
    simpa using h,
   by
    have h := (notification_payload_rules
        ⟨5, none, none, some "hello", none, none⟩ none).2.2.2.2.2.2.2.2.1
      (by decide)
    simpa using h⟩

end PushoverClient
